import Mathlib

/-!
Shallow embedding of the TikTok download CLI (`src/modules/ytdl/index.ts`,
second compilation unit of the file: the `processUrl` pipeline and its
helpers).  Network I/O (axios), the markup parser (cheerio) and JSON.parse
are external collaborators; they are modelled as explicit fields of an
`Env` record, so every run of the embedded `processUrl` is a pure function
of the URL and of what the collaborators would have answered.  JavaScript
values that may be `undefined` strings are modelled as `Option String`
(template-literal rendering of `undefined` is the string "undefined",
`x || 'Unknown'` treats both `undefined` and `""` as falsy).  Timestamps
are integers (payloads with non-numeric `createTime` are outside the
model).  `Date#getDate/getMonth/getFullYear` are local-time accessors, so
the host timezone enters the model as an explicit offset in minutes west
of UTC (the `Date#getTimezoneOffset` convention, 0 = UTC).
-/

namespace TiktokDl

/-- Rendering of a possibly-`undefined` JS string inside a template
literal: `undefined` prints as "undefined". -/
def jsTemplate : Option String → String
  | some s => s
  | none => "undefined"

/-- The JS expression `x || 'Unknown'` for a possibly-`undefined` string:
both `undefined` and the empty string are falsy and yield "Unknown". -/
def orUnknown : Option String → String
  | some s => if s = "" then "Unknown" else s
  | none => "Unknown"

/-- `String.prototype.padStart(2, "0")` as used on day/month numbers. -/
def padStart2 (s : String) : String :=
  if s.length < 2 then String.mk (List.replicate (2 - s.length) '0') ++ s else s

/-- Proleptic-Gregorian civil date (year, month, day) of a day number
counted from the Unix epoch (1970-01-01 = day 0).  This is the calendar
arithmetic that ECMAScript `Date` prescribes for `getFullYear`,
`getMonth` and `getDate`; all divisions are floor divisions. -/
def civilFromDays (z0 : Int) : Int × Int × Int :=
  let z := z0 + 719468
  let era := z.fdiv 146097
  let doe := z - era * 146097
  let yoe := (doe - doe.fdiv 1460 + doe.fdiv 36524 - doe.fdiv 146096).fdiv 365
  let y := yoe + era * 400
  let doy := doe - (365 * yoe + yoe.fdiv 4 - yoe.fdiv 100)
  let mp := (5 * doy + 2).fdiv 153
  let d := doy - (153 * mp + 2).fdiv 5 + 1
  let m := if mp < 10 then mp + 3 else mp - 9
  (if m ≤ 2 then y + 1 else y, m, d)

/-- `formatUploadDate` from the source: `new Date(timestamp * 1000)`
followed by the local-time accessors `getDate`, `getMonth() + 1` and
`getFullYear`, each day/month zero-padded to two digits.  `tzOffsetMinutes`
is the host timezone offset in minutes west of UTC (0 when the process
runs in UTC); local time is UTC minus that offset. -/
def formatUploadDate (tzOffsetMinutes : Int) (timestamp : Int) : String :=
  let localMs := timestamp * 1000 - tzOffsetMinutes * 60000
  match civilFromDays (localMs.fdiv 86400000) with
  | (y, m, d) => padStart2 (toString d) ++ padStart2 (toString m) ++ toString y

/-- One character class of the JS regexp metacharacter `.` without the `s`
flag: `.` matches everything except these four line terminators. -/
def isLineTerminator (c : Char) : Bool :=
  c = '\n' || c = '\r' || c = Char.ofNat 0x2028 || c = Char.ofNat 0x2029

/-- Tail of the regexp after the host part: `\/?(.*)$` matches the
remainder exactly when it contains no line terminator (the optional slash
is subsumed by `.*`). -/
def regexTailOk (r : List Char) : Bool := !(r.any isLineTerminator)

/-- `TIKTOK_URL_REGEX.test(url)` for
`/^https?:\/\/(www\.|vm\.|vt\.)?(tiktok\.com)\/?(.*)$/`: scheme, an
optional subdomain alternative, the literal host, then any remainder free
of line terminators.  The alternation with its optional group is rendered
as the set of candidate continuations a backtracking engine would try. -/
def tiktokRegexTest (s : String) : Bool :=
  let cs := s.data
  let afterScheme : Option (List Char) :=
    if "https://".data.isPrefixOf cs then some (cs.drop 8)
    else if "http://".data.isPrefixOf cs then some (cs.drop 7)
    else none
  match afterScheme with
  | none => false
  | some rest =>
    let candidates :=
      rest :: (["www.", "vm.", "vt."].filterMap fun p =>
        if p.data.isPrefixOf rest then some (rest.drop p.data.length) else none)
    candidates.any fun c => "tiktok.com".data.isPrefixOf c && regexTailOk (c.drop 10)

/-- `validateURL` from the source: reject empty / non-string input, then
test the platform regexp. -/
def validateURL (url : String) : Bool :=
  if url = "" then false else tiktokRegexTest url

/-- Auxiliary scan for `String.prototype.includes`: does `pat` occur as a
contiguous run somewhere in `l`? -/
def includesAux (pat : List Char) : List Char → Bool
  | [] => pat.isEmpty
  | c :: rest => pat.isPrefixOf (c :: rest) || includesAux pat rest

/-- `url.includes("/photo/")` from `processUrl`: a literal substring test
on the raw URL string (query string and fragment included). -/
def includesPhoto (url : String) : Bool :=
  includesAux "/photo/".data url.data

/-- One element of the session ledger (`downloadStats.push` payloads).
`id` and `author` keep the raw possibly-`undefined` values the source
stores. -/
structure DownloadStat where
  type : String
  id : Option String
  author : Option String
  status : String
  details : String
deriving DecidableEq, Repr

/-- The `VideoData` record built by either resolution strategy.
`videoUrl` is `Option` because the source can store `undefined` there
(absent `playAddr`, or `playAddr[0]` of an empty array). -/
structure VideoData where
  authorUniqueId : Option String
  videoId : Option String
  createTime : Int
  videoUrl : Option String
  description : Option String
deriving DecidableEq, Repr

/-- `bitrateInfo[k].PlayAddr` object: the only field read is `UrlList`. -/
structure PlayAddrObj where
  UrlList : Option (List String)
deriving DecidableEq, Repr

/-- One entry of `video.bitrateInfo`. -/
structure BitrateEntry where
  PlayAddr : Option PlayAddrObj
deriving DecidableEq, Repr

/-- The `itemStruct.video` object as accessed by the markup strategy. -/
structure VideoObj where
  playAddr : Option String
  bitrateInfo : Option (List BitrateEntry)
deriving DecidableEq, Repr

/-- The `itemStruct.author` object: only `uniqueId` is read. -/
structure AuthorObj where
  uniqueId : Option String
deriving DecidableEq, Repr

/-- `itemInfo.itemStruct` with exactly the fields the source reads.
`createTime` is restricted to numeric payloads. -/
structure ItemStruct where
  author : Option AuthorObj
  video : Option VideoObj
  id : Option String
  createTime : Int
  desc : Option String
deriving DecidableEq, Repr

/-- `videoDetail.itemInfo`. -/
structure ItemInfoObj where
  itemStruct : Option ItemStruct
deriving DecidableEq, Repr

/-- The `__DEFAULT_SCOPE__["webapp.video-detail"]` object. -/
structure VideoDetailObj where
  itemInfo : Option ItemInfoObj
deriving DecidableEq, Repr

/-- The `__DEFAULT_SCOPE__` object: only the "webapp.video-detail" key is
read. -/
structure ScopeObj where
  videoDetail : Option VideoDetailObj
deriving DecidableEq, Repr

/-- Typed view of a successfully parsed rehydration JSON document,
restricted to the fields `extractVideoDataFromJson` navigates. -/
structure ParsedRoot where
  defaultScope : Option ScopeObj
deriving DecidableEq, Repr

/-- `extractVideoDataFromJson` from the source.  `parse` models
`JSON.parse` on the raw element text (`none` = parse exception, caught by
the surrounding try/catch and returned as `null`).  Every `?.` navigation
failure returns `null`; the playback URL prefers
`bitrateInfo[0].PlayAddr.UrlList[0]` over `playAddr` when that entry is
truthy (a non-empty string). -/
def extractVideoDataFromJson (parse : String → Option ParsedRoot)
    (rawJSON : String) : Option VideoData :=
  match parse rawJSON with
  | none => none
  | some parsedJSON =>
    match parsedJSON.defaultScope with
    | none => none
    | some scope =>
      match scope.videoDetail with
      | none => none
      | some videoDetail =>
        match videoDetail.itemInfo with
        | none => none
        | some itemInfo =>
          match itemInfo.itemStruct with
          | none => none
          | some itemStruct =>
            match itemStruct.author, itemStruct.video with
            | some author, some video =>
              let baseUrl := video.playAddr
              let videoUrl :=
                match video.bitrateInfo with
                | some (b :: _) =>
                  match b.PlayAddr with
                  | some pa =>
                    match pa.UrlList with
                    | some (u :: _) => if u = "" then baseUrl else some u
                    | _ => baseUrl
                  | none => baseUrl
                | _ => baseUrl
              some { authorUniqueId := author.uniqueId,
                     videoId := itemStruct.id,
                     createTime := itemStruct.createTime,
                     videoUrl := videoUrl,
                     description := itemStruct.desc }
            | _, _ => none

/-- Backup-API `result.video` object: only `playAddr` (a JSON array) is
read. -/
structure ApiVideo where
  playAddr : Option (List String)
deriving DecidableEq, Repr

/-- Backup-API `result.author` object: only `username` is read. -/
structure ApiAuthor where
  username : Option String
deriving DecidableEq, Repr

/-- Backup-API `result` payload, restricted to the fields the source
reads.  `createTime` is restricted to numeric payloads. -/
structure ApiResultObj where
  type : Option String
  id : Option String
  createTime : Int
  author : Option ApiAuthor
  images : Option (List String)
  video : Option ApiVideo
deriving DecidableEq, Repr

/-- Backup-API HTTP body: `{ status, result }`. -/
structure ApiResponse where
  status : String
  result : Option ApiResultObj
deriving DecidableEq, Repr

/-- Observable side effects of one `processUrl` run, in execution order. -/
inductive Event where
  | htmlFetch (url : String)
  | apiFetch (url : String)
  | imageFetch (url : String)
  | videoFetch (url : Option String)
  | fileWrite (name : String)
deriving DecidableEq, Repr

/-- Terminal spinner state of one `processUrl` run: the success or
failure message reported inline to the user. -/
inductive SpinnerEnd where
  | succeed (msg : String)
  | fail (msg : String)
deriving DecidableEq, Repr

/-- Everything one `processUrl` invocation does: ledger records appended
(in order), side-effect events, files written, and the inline report.
`processUrl` is a total function into this type — the source's outer
catch converts every thrown error into a `spinner.fail`, so no error
escapes to the session loop. -/
structure ProcResult where
  stats : List DownloadStat
  events : List Event
  files : List String
  spinner : SpinnerEnd
deriving DecidableEq, Repr

/-- The collaborators of one `processUrl` run: the host timezone offset
(minutes west of UTC), the page-HTML fetch result, the markup parser
(HTML ↦ text of the first child of `#__UNIVERSAL_DATA_FOR_REHYDRATION__`,
`none` when the element or its child data is absent), `JSON.parse`, the
backup-API round trip, and the two media fetchers. -/
structure Env where
  tz : Int
  html : Except String String
  rehydration : String → Option String
  parseJson : String → Option ParsedRoot
  api : Except String ApiResponse
  fetchImage : String → Except String String
  fetchVideo : Option String → Except String String

/-- The try-block of the markup strategy in `processUrl`: fetch the HTML
(any throw is caught and ignored), locate the rehydration element, and if
its raw JSON text is truthy run `extractVideoDataFromJson`. -/
def markupResolve (env : Env) : Option VideoData :=
  match env.html with
  | Except.error _ => none
  | Except.ok htmlStr =>
    match env.rehydration htmlStr with
    | none => none
    | some rawJSON =>
      if rawJSON = "" then none else extractVideoDataFromJson env.parseJson rawJSON

/-- `getMediaInfoFromAPI` from the source: a transport failure propagates
as is, a body whose `status` is not "success" throws
`API Error: <status>`, otherwise `result` (possibly `undefined`) is
returned. -/
def getMediaInfoFromAPI (api : Except String ApiResponse) :
    Except String (Option ApiResultObj) :=
  match api with
  | Except.error e => Except.error e
  | Except.ok resp =>
    if resp.status ≠ "success" then Except.error ("API Error: " ++ resp.status)
    else Except.ok resp.result

/-- The image loop of `downloadImages`: strictly sequential fetches; a
fetch failure stops the loop and rethrows, leaving earlier files on
disk.  Returns events, file names written, and the success count or the
error. -/
def imagesGo (tz : Int) (fetch : String → Except String String)
    (timestamp : Int) (authorId : Option String) (imageId : Option String) :
    List String → Nat → List Event × List String × Except String Nat
  | [], _ => ([], [], Except.ok 0)
  | u :: rest, i =>
    match fetch u with
    | Except.error e => ([Event.imageFetch u], [], Except.error e)
    | Except.ok _ =>
      let fileName := jsTemplate authorId ++ "_img_" ++ formatUploadDate tz timestamp
        ++ "_" ++ jsTemplate imageId ++ "_" ++ toString (i + 1) ++ ".jpg"
      match imagesGo tz fetch timestamp authorId imageId rest (i + 1) with
      | (evs, files, res) =>
        (Event.imageFetch u :: Event.fileWrite fileName :: evs,
         fileName :: files,
         match res with
         | Except.ok n => Except.ok (n + 1)
         | Except.error e => Except.error e)

/-- Combined outcome of `downloadImages`: events, the single pushed
ledger record, files written, and normal return or rethrow. -/
structure ImagesOut where
  events : List Event
  stats : List DownloadStat
  files : List String
  result : Except String Unit

/-- `downloadImages` from the source: on full success it pushes one
`Photo Slide` / `Success` record with "`<n>` Images" details; on any
fetch failure its catch pushes one `Photo` / `Failed` record (id and
author defaulted to "Unknown" when falsy) and rethrows. -/
def downloadImages (tz : Int) (fetch : String → Except String String)
    (imageId : Option String) (imageUrls : List String)
    (timestamp : Int) (authorId : Option String) : ImagesOut :=
  match imagesGo tz fetch timestamp authorId imageId imageUrls 0 with
  | (evs, files, Except.ok n) =>
    { events := evs, files := files,
      stats := [{ type := "Photo Slide", id := imageId, author := authorId,
                  status := "Success", details := toString n ++ " Images" }],
      result := Except.ok () }
  | (evs, files, Except.error e) =>
    { events := evs, files := files,
      stats := [{ type := "Photo", id := some (orUnknown imageId),
                  author := some (orUnknown authorId),
                  status := "Failed", details := e }],
      result := Except.error e }

/-- Combined outcome of `downloadVideo`: events, the single pushed
ledger record, files written, and the returned file name or rethrow. -/
structure VideoOut where
  events : List Event
  stats : List DownloadStat
  files : List String
  result : Except String String

/-- `downloadVideo` from the source: fetch `videoData.videoUrl`, write
`{authorUniqueId}_vid_{formatUploadDate(createTime)}_{videoId}.mp4`, and
push one `Video` record — `Success` on a completed write, `Failed` (with
"Unknown" fallbacks and the error message) on a fetch failure, which is
then rethrown. -/
def downloadVideo (tz : Int) (fetch : Option String → Except String String)
    (videoData : VideoData) : VideoOut :=
  match fetch videoData.videoUrl with
  | Except.error e =>
    { events := [Event.videoFetch videoData.videoUrl], files := [],
      stats := [{ type := "Video", id := some (orUnknown videoData.videoId),
                  author := some (orUnknown videoData.authorUniqueId),
                  status := "Failed", details := e }],
      result := Except.error e }
  | Except.ok _ =>
    let fileName := jsTemplate videoData.authorUniqueId ++ "_vid_"
      ++ formatUploadDate tz videoData.createTime ++ "_"
      ++ jsTemplate videoData.videoId ++ ".mp4"
    { events := [Event.videoFetch videoData.videoUrl, Event.fileWrite fileName],
      files := [fileName],
      stats := [{ type := "Video", id := videoData.videoId,
                  author := videoData.authorUniqueId,
                  status := "Success", details := "MP4 Saved" }],
      result := Except.ok fileName }

/-- Error message of the JS `TypeError` raised by reading `.type` off an
`undefined` API `result`. -/
def typeReadError : String := "Cannot read properties of undefined (reading 'type')"

/-- Error message of the JS `TypeError` raised by reading `.username` off
an `undefined` API `author`. -/
def usernameReadError : String := "Cannot read properties of undefined (reading 'username')"

/-- The photo branch of `processUrl` (URL contains "/photo/"): one
backup-API query; `photoData.type !== "image" || !photoData.images`
throws "Invalid photo data structure" — note that an **empty** `images`
array is truthy in JS and passes this check; then `downloadImages` runs
with `photoData.author.username` (a `TypeError` when `author` is
absent).  Every throw is caught by the outer catch and reported as
`Error: <message>`; only `downloadImages` itself pushes ledger
records. -/
def processPhoto (env : Env) (url : String) : ProcResult :=
  match getMediaInfoFromAPI env.api with
  | Except.error e =>
    { stats := [], events := [Event.apiFetch url], files := [],
      spinner := SpinnerEnd.fail ("Error: " ++ e) }
  | Except.ok none =>
    { stats := [], events := [Event.apiFetch url], files := [],
      spinner := SpinnerEnd.fail ("Error: " ++ typeReadError) }
  | Except.ok (some photoData) =>
    if photoData.type ≠ some "image" ∨ photoData.images = none then
      { stats := [], events := [Event.apiFetch url], files := [],
        spinner := SpinnerEnd.fail "Error: Invalid photo data structure" }
    else
      match photoData.author with
      | none =>
        { stats := [], events := [Event.apiFetch url], files := [],
          spinner := SpinnerEnd.fail ("Error: " ++ usernameReadError) }
      | some a =>
        let out := downloadImages env.tz env.fetchImage photoData.id
          (photoData.images.getD []) photoData.createTime a.username
        { stats := out.stats, events := Event.apiFetch url :: out.events,
          files := out.files,
          spinner :=
            match out.result with
            | Except.ok _ => SpinnerEnd.succeed "Photo slide downloaded successfully!"
            | Except.error e => SpinnerEnd.fail ("Error: " ++ e) }

/-- The video branch of `processUrl`: markup strategy first (its whole
try-block failure is swallowed), then — only when no `VideoData` was
produced — the backup API.  `apiData.type !== "video" ||
!apiData.video?.playAddr` throws "API failed to retrieve video data";
an **empty** `playAddr` array is truthy in JS, passes the check, and
`playAddr[0]` (i.e. `undefined`) becomes the download URL.  As in the
photo branch, only `downloadVideo` pushes ledger records and every throw
ends in the outer catch. -/
def processVideo (env : Env) (url : String) : ProcResult :=
  match markupResolve env with
  | some videoData =>
    let out := downloadVideo env.tz env.fetchVideo videoData
    { stats := out.stats, events := Event.htmlFetch url :: out.events,
      files := out.files,
      spinner :=
        match out.result with
        | Except.ok _ => SpinnerEnd.succeed "Video downloaded successfully!"
        | Except.error e => SpinnerEnd.fail ("Error: " ++ e) }
  | none =>
    match getMediaInfoFromAPI env.api with
    | Except.error e =>
      { stats := [], events := [Event.htmlFetch url, Event.apiFetch url],
        files := [], spinner := SpinnerEnd.fail ("Error: " ++ e) }
    | Except.ok none =>
      { stats := [], events := [Event.htmlFetch url, Event.apiFetch url],
        files := [], spinner := SpinnerEnd.fail ("Error: " ++ typeReadError) }
    | Except.ok (some apiData) =>
      if apiData.type ≠ some "video" ∨ apiData.video.bind ApiVideo.playAddr = none then
        { stats := [], events := [Event.htmlFetch url, Event.apiFetch url],
          files := [],
          spinner := SpinnerEnd.fail "Error: API failed to retrieve video data" }
      else
        match apiData.author with
        | none =>
          { stats := [], events := [Event.htmlFetch url, Event.apiFetch url],
            files := [], spinner := SpinnerEnd.fail ("Error: " ++ usernameReadError) }
        | some a =>
          let videoData : VideoData :=
            { authorUniqueId := a.username, videoId := apiData.id,
              createTime := apiData.createTime,
              videoUrl := ((apiData.video.bind ApiVideo.playAddr).getD []).head?,
              description := none }
          let out := downloadVideo env.tz env.fetchVideo videoData
          { stats := out.stats,
            events := Event.htmlFetch url :: Event.apiFetch url :: out.events,
            files := out.files,
            spinner :=
              match out.result with
              | Except.ok _ => SpinnerEnd.succeed "Video downloaded successfully!"
              | Except.error e => SpinnerEnd.fail ("Error: " ++ e) }

/-- `processUrl` from the source: invalid URLs are reported and return
early with no network call and no ledger record; otherwise the literal
substring test `url.includes("/photo/")` selects the photo or the video
branch. -/
def processUrl (env : Env) (url : String) : ProcResult :=
  if validateURL url = false then
    { stats := [], events := [], files := [],
      spinner := SpinnerEnd.fail "Invalid TikTok URL format!" }
  else if includesPhoto url then processPhoto env url
  else processVideo env url

/-! ## Helper lemmas -/

theorem includesAux_iff (pat l : List Char) :
    includesAux pat l = true ↔ pat <:+: l := by
  induction l with
  | nil =>
    simp [includesAux, List.isEmpty_iff, List.infix_nil]
  | cons c rest ih =>
    simp [includesAux, List.infix_cons_iff, ih, List.isPrefixOf_iff_prefix,
      Bool.or_eq_true]

theorem includesPhoto_iff (url : String) :
    includesPhoto url = true ↔ "/photo/".data <:+: url.data := by
  simpa [includesPhoto] using includesAux_iff "/photo/".data url.data

theorem downloadImages_stats_length (tz : Int) (fetch : String → Except String String)
    (imageId : Option String) (imageUrls : List String) (timestamp : Int)
    (authorId : Option String) :
    (downloadImages tz fetch imageId imageUrls timestamp authorId).stats.length = 1 := by
  unfold downloadImages
  rcases h : imagesGo tz fetch timestamp authorId imageId imageUrls 0 with ⟨evs, files, res⟩
  cases res <;> simp

theorem downloadVideo_stats_length (tz : Int)
    (fetch : Option String → Except String String) (videoData : VideoData) :
    (downloadVideo tz fetch videoData).stats.length = 1 := by
  unfold downloadVideo
  cases h : fetch videoData.videoUrl <;> simp

theorem imagesGo_no_apiFetch (tz : Int) (fetch : String → Except String String)
    (timestamp : Int) (authorId : Option String) (imageId : Option String)
    (v : String) :
    ∀ (urls : List String) (i : Nat),
      Event.apiFetch v ∉ (imagesGo tz fetch timestamp authorId imageId urls i).1 := by
  intro urls
  induction urls with
  | nil => intro i; simp [imagesGo]
  | cons u rest ih =>
    intro i
    rw [imagesGo]
    cases h : fetch u with
    | error e => simp
    | ok d =>
      rcases hgo : imagesGo tz fetch timestamp authorId imageId rest (i + 1) with ⟨evs, files, res⟩
      have := ih (i + 1)
      rw [hgo] at this
      simp_all

theorem downloadImages_no_apiFetch (tz : Int) (fetch : String → Except String String)
    (imageId : Option String) (imageUrls : List String) (timestamp : Int)
    (authorId : Option String) (v : String) :
    Event.apiFetch v ∉ (downloadImages tz fetch imageId imageUrls timestamp authorId).events := by
  unfold downloadImages
  have := imagesGo_no_apiFetch tz fetch timestamp authorId imageId v imageUrls 0
  rcases h : imagesGo tz fetch timestamp authorId imageId imageUrls 0 with ⟨evs, files, res⟩
  rw [h] at this
  cases res <;> simpa using this

theorem downloadVideo_no_apiFetch (tz : Int)
    (fetch : Option String → Except String String) (videoData : VideoData)
    (v : String) :
    Event.apiFetch v ∉ (downloadVideo tz fetch videoData).events := by
  unfold downloadVideo
  cases h : fetch videoData.videoUrl <;> simp

theorem processPhoto_stats_length_le (env : Env) (url : String) :
    (processPhoto env url).stats.length ≤ 1 := by
  unfold processPhoto
  repeat' split
  all_goals simp [downloadImages_stats_length]

theorem processVideo_stats_length_le (env : Env) (url : String) :
    (processVideo env url).stats.length ≤ 1 := by
  unfold processVideo
  repeat' split
  all_goals simp [downloadVideo_stats_length]

theorem downloadImages_apiFetch_count (tz : Int) (fetch : String → Except String String)
    (imageId : Option String) (imageUrls : List String) (timestamp : Int)
    (authorId : Option String) (v : String) :
    (downloadImages tz fetch imageId imageUrls timestamp authorId).events.count
      (Event.apiFetch v) = 0 :=
  List.count_eq_zero.mpr (downloadImages_no_apiFetch tz fetch imageId imageUrls timestamp authorId v)

theorem downloadVideo_apiFetch_count (tz : Int)
    (fetch : Option String → Except String String) (videoData : VideoData) (v : String) :
    (downloadVideo tz fetch videoData).events.count (Event.apiFetch v) = 0 :=
  List.count_eq_zero.mpr (downloadVideo_no_apiFetch tz fetch videoData v)

theorem processPhoto_events_head (env : Env) (url : String) :
    (processPhoto env url).events.head? = some (Event.apiFetch url) := by
  unfold processPhoto
  repeat' split
  all_goals simp

theorem processVideo_events_head (env : Env) (url : String) :
    (processVideo env url).events.head? = some (Event.htmlFetch url) := by
  unfold processVideo
  repeat' split
  all_goals simp

theorem processPhoto_api_count (env : Env) (url : String) :
    (processPhoto env url).events.count (Event.apiFetch url) = 1 := by
  unfold processPhoto
  repeat' split
  all_goals simp [List.count_cons, List.count_nil, downloadImages_apiFetch_count]

theorem processVideo_api_count_of_markup_some (env : Env) (url : String)
    (vd : VideoData) (h : markupResolve env = some vd) :
    (processVideo env url).events.count (Event.apiFetch url) = 0 := by
  unfold processVideo
  rw [h]
  simp [List.count_cons, downloadVideo_apiFetch_count]

theorem processVideo_api_count_of_markup_none (env : Env) (url : String)
    (h : markupResolve env = none) :
    (processVideo env url).events.count (Event.apiFetch url) = 1 := by
  unfold processVideo
  rw [h]
  repeat' split
  all_goals simp_all [List.count_cons, List.count_nil, downloadVideo_apiFetch_count]

theorem processUrl_photo_branch (env : Env) (url : String)
    (hval : validateURL url = true) (hph : includesPhoto url = true) :
    processUrl env url = processPhoto env url := by
  unfold processUrl
  simp [hval, hph]

theorem processUrl_video_branch (env : Env) (url : String)
    (hval : validateURL url = true) (hph : includesPhoto url = false) :
    processUrl env url = processVideo env url := by
  unfold processUrl
  simp [hval, hph]

/-! ## Concrete environments used by witnesses and counterexamples -/

/-- A collaborator environment in which every network operation fails. -/
def failingEnv : Env :=
  { tz := 0, html := Except.error "getaddrinfo ENOTFOUND www.tiktok.com",
    rehydration := fun _ => none, parseJson := fun _ => none,
    api := Except.error "Network Error",
    fetchImage := fun _ => Except.error "Network Error",
    fetchVideo := fun _ => Except.error "Network Error" }

/-- A syntactically valid video URL. -/
def videoUrl : String := "https://www.tiktok.com/@user/video/7"

/-- A syntactically valid photo URL. -/
def photoUrl : String := "https://www.tiktok.com/@user/photo/7"

/-! ## Claim theorems -/

/-- C1, counterexample: the claim says every `processUrl` invocation
appends exactly one OutcomeRecord, errors before the download stage
included.  In fact an invalid URL appends no record at all, and a
resolution-stage failure (backup-API transport error on a video URL with
failing markup extraction) also appends no record — the outer catch only
reports it on the spinner. -/
theorem C1_cex_no_record_on_early_failure :
    (processUrl failingEnv "notaurl").stats = [] ∧
    (processUrl failingEnv videoUrl).stats = [] ∧
    (processUrl failingEnv videoUrl).spinner = SpinnerEnd.fail "Error: Network Error" := by
  decide

/-- C1 (amended): every `processUrl` invocation appends **at most** one
OutcomeRecord to the session ledger — exactly one when a download stage
runs, and none when classification or resolution fails first; in all
cases the error is reported via the spinner and never raised further
(`processUrl` is a total function into `ProcResult`). -/
theorem C1_at_most_one_record (env : Env) (url : String) :
    (processUrl env url).stats.length ≤ 1 := by
  unfold processUrl
  split
  · simp
  · split
    · exact processPhoto_stats_length_le env url
    · exact processVideo_stats_length_le env url

/-- Backup-API payload for a photo post whose `images` array is empty. -/
def emptyImagesResult : ApiResultObj :=
  { type := some "image", id := some "7", createTime := 0,
    author := some { username := some "al" }, images := some [], video := none }

/-- Environment whose backup API answers with `emptyImagesResult`. -/
def emptyImagesEnv : Env :=
  { tz := 0, html := Except.error "unused", rehydration := fun _ => none,
    parseJson := fun _ => none,
    api := Except.ok { status := "success", result := some emptyImagesResult },
    fetchImage := fun _ => Except.error "unused",
    fetchVideo := fun _ => Except.error "unused" }

/-- C2, counterexample: the claim requires a non-empty image-URL sequence
(length ≥ 1) for success, and says any other payload, an empty sequence
included, yields Failed.  In fact an empty `images` array is truthy in
JS, passes the `!photoData.images` check, downloads zero files, and the
run records a **Success** "0 Images" record and reports success. -/
theorem C2_cex_empty_images_succeeds :
    (processUrl emptyImagesEnv photoUrl).spinner
      = SpinnerEnd.succeed "Photo slide downloaded successfully!" ∧
    (processUrl emptyImagesEnv photoUrl).stats
      = [{ type := "Photo Slide", id := some "7", author := some "al",
           status := "Success", details := "0 Images" }] ∧
    (processUrl emptyImagesEnv photoUrl).files = [] := by
  decide

/-- C2 (amended): for every photo-set URL the backup API is queried
exactly once, and a Success outcome can only arise from a transport
success whose body has `status = "success"`, a payload whose declared
type equals "image" and whose `images` field is **present** — but the
sequence may be empty (see the counterexample), in which case success is
reported with zero downloads. -/
theorem C2_api_once_and_success_shape (env : Env) (url : String)
    (hval : validateURL url = true) (hph : includesPhoto url = true) :
    (processUrl env url).events.count (Event.apiFetch url) = 1 ∧
    ((processUrl env url).spinner = SpinnerEnd.succeed "Photo slide downloaded successfully!" →
      ∃ resp r, env.api = Except.ok resp ∧ resp.status = "success" ∧
        resp.result = some r ∧ r.type = some "image" ∧ r.images ≠ none ∧ r.author ≠ none) := by
  rw [processUrl_photo_branch env url hval hph]
  refine ⟨processPhoto_api_count env url, ?_⟩
  intro hs
  unfold processPhoto at hs
  rcases ha : env.api with e | resp
  · rw [show getMediaInfoFromAPI env.api = Except.error e by rw [ha]; rfl] at hs
    simp at hs
  · by_cases hst : resp.status = "success"
    · have hg : getMediaInfoFromAPI env.api = Except.ok resp.result := by
        rw [ha]; unfold getMediaInfoFromAPI; simp [hst]
      rcases hres : resp.result with _ | r <;> rw [hres] at hg <;>
        simp only [hg] at hs
      · simp at hs
      · split at hs
        · simp at hs
        · rcases hau : r.author with _ | a <;> simp only [hau] at hs
          · simp at hs
          · rename_i hcond
            push_neg at hcond
            exact ⟨resp, r, rfl, hst, hres, hcond.1, hcond.2, by simp [hau]⟩
    · have hg : getMediaInfoFromAPI env.api
          = Except.error ("API Error: " ++ resp.status) := by
        rw [ha]; unfold getMediaInfoFromAPI; simp [hst]
      rw [hg] at hs
      simp at hs

/-- Backup-API payload for a single-image photo post. -/
def oneImageResult : ApiResultObj :=
  { type := some "image", id := some "7", createTime := 0,
    author := some { username := some "al" },
    images := some ["http://img/1"], video := none }

/-- Environment whose backup API answers a valid single-image photo
payload and whose image fetch succeeds. -/
def oneImageEnv : Env :=
  { tz := 0, html := Except.error "unused", rehydration := fun _ => none,
    parseJson := fun _ => none,
    api := Except.ok { status := "success", result := some oneImageResult },
    fetchImage := fun _ => Except.ok "bytes",
    fetchVideo := fun _ => Except.error "unused" }

/-- Witness for C2: on a concrete photo URL with a well-formed payload
the backup API is queried exactly once. -/
theorem C2_witness :
    validateURL photoUrl = true ∧ includesPhoto photoUrl = true ∧
    (processUrl oneImageEnv photoUrl).events.count (Event.apiFetch photoUrl) = 1 :=
  ⟨by decide, by decide,
    (C2_api_once_and_success_shape oneImageEnv photoUrl (by decide) (by decide)).1⟩

/-- Backup-API payload with declared type "video" but an empty
`video.playAddr` array. -/
def emptyPlayAddrResult : ApiResultObj :=
  { type := some "video", id := some "7", createTime := 0,
    author := some { username := some "al" }, images := none,
    video := some { playAddr := some [] } }

/-- Environment for the empty-`playAddr` scenario: markup extraction
fails (transport error), the backup API returns `emptyPlayAddrResult`,
and fetching the resulting `undefined` URL fails as axios would. -/
def emptyPlayAddrEnv : Env :=
  { tz := 0, html := Except.error "fetch failed", rehydration := fun _ => none,
    parseJson := fun _ => none,
    api := Except.ok { status := "success", result := some emptyPlayAddrResult },
    fetchImage := fun _ => Except.error "unused",
    fetchVideo := fun _ => Except.error "Request failed with status code 404" }

/-- C3: the claim (and the spec) say that `status: "success"` with
`result.type: "video"` but empty `video.playAddr` makes the backup-API
strategy yield Failed at resolution.  The code's guard
`!apiData.video?.playAddr` does not fire on an empty array (`![]` is
`false` in JS), so resolution **succeeds**, `playAddr[0]` — i.e.
`undefined` — becomes the playback URL, and the Retriever attempts a
download with that undefined URL (the `Event.videoFetch none` below);
only that fetch's failure produces the Failed record. -/
theorem C3_empty_playAddr_reaches_download :
    (processUrl emptyPlayAddrEnv videoUrl).events
      = [Event.htmlFetch videoUrl, Event.apiFetch videoUrl, Event.videoFetch none] ∧
    (processUrl emptyPlayAddrEnv videoUrl).stats
      = [{ type := "Video", id := some "7", author := some "al", status := "Failed",
           details := "Request failed with status code 404" }] := by
  decide

/-- C4: for every valid video URL the markup (HTML) strategy runs
first — the first side effect of the run is the page-HTML fetch — and
whenever markup extraction produces a video descriptor the backup API is
never called for that URL (zero `apiFetch` events in the whole run). -/
theorem C4_markup_before_api (env : Env) (url : String)
    (hval : validateURL url = true) (hph : includesPhoto url = false) :
    (processUrl env url).events.head? = some (Event.htmlFetch url) ∧
    (∀ vd, markupResolve env = some vd →
      (processUrl env url).events.count (Event.apiFetch url) = 0) := by
  rw [processUrl_video_branch env url hval hph]
  exact ⟨processVideo_events_head env url,
    fun vd h => processVideo_api_count_of_markup_some env url vd h⟩

/-- `itemStruct` of a fully well-formed video rehydration payload. -/
def markupItemStruct : ItemStruct :=
  { author := some { uniqueId := some "al" },
    video := some { playAddr := some "http://cdn/v.mp4", bitrateInfo := none },
    id := some "7", createTime := 1709596800, desc := some "d" }

/-- Parsed rehydration document of a fully well-formed video page. -/
def markupRoot : ParsedRoot :=
  { defaultScope := some { videoDetail := some { itemInfo := some { itemStruct := some markupItemStruct } } } }

/-- Environment in which the markup strategy fully succeeds; the backup
API would fail loudly if it were consulted. -/
def markupEnv : Env :=
  { tz := 0, html := Except.ok "<html>", rehydration := fun _ => some "raw",
    parseJson := fun _ => some markupRoot,
    api := Except.error "backup API must not be called",
    fetchImage := fun _ => Except.error "unused",
    fetchVideo := fun _ => Except.ok "bytes" }

/-- The `VideoData` the markup strategy extracts from `markupRoot`. -/
def markupVideoData : VideoData :=
  { authorUniqueId := some "al", videoId := some "7", createTime := 1709596800,
    videoUrl := some "http://cdn/v.mp4", description := some "d" }

/-- Witness for C4: in a concrete run whose markup extraction succeeds,
the backup API is called zero times. -/
theorem C4_witness :
    validateURL videoUrl = true ∧ includesPhoto videoUrl = false ∧
    markupResolve markupEnv = some markupVideoData ∧
    (processUrl markupEnv videoUrl).events.count (Event.apiFetch videoUrl) = 0 :=
  ⟨by decide, by decide, by decide,
    (C4_markup_before_api markupEnv videoUrl (by decide) (by decide)).2
      markupVideoData (by decide)⟩

/-- C5, counterexample: the filename date does not come from a UTC
reading of `createdAt` — the source uses the local-time accessors
`getDate`/`getMonth`/`getFullYear`.  With `createdAt = 1709596800`
(midnight UTC, 5 March 2024) and a host timezone one hour west of UTC,
the file is named with 4 March, not the UTC date 5 March the claim
demands. -/
theorem C5_cex_local_timezone :
    (downloadVideo 60 (fun _ => Except.ok "payload")
      { authorUniqueId := some "ab", videoId := some "123", createTime := 1709596800,
        videoUrl := some "http://v", description := none }).files
      = ["ab_vid_04032024_123.mp4"] ∧
    ("ab_vid_04032024_123.mp4" : String) ≠ "ab_vid_05032024_123.mp4" := by
  decide

/-- C5 (amended): the Retriever writes the payload to
`{authorId}_vid_{DDMMYYYY}_{itemId}.mp4` where DDMMYYYY is derived from
`createdAt` in the **runtime's local timezone** (zero-padded day/month,
four-digit year); when the runtime timezone is UTC (offset 0), the
claim's example holds exactly: `authorId=ab`, `itemId=123`,
`createdAt = 1709596800` (5 March 2024) yields
`ab_vid_05032024_123.mp4`. -/
theorem C5_video_filename_scheme :
    (∀ (tz : Int) (fetch : Option String → Except String String) (vd : VideoData)
      (d : String), fetch vd.videoUrl = Except.ok d →
      (downloadVideo tz fetch vd).files
        = [jsTemplate vd.authorUniqueId ++ "_vid_" ++ formatUploadDate tz vd.createTime
            ++ "_" ++ jsTemplate vd.videoId ++ ".mp4"]) ∧
    (downloadVideo 0 (fun _ => Except.ok "payload")
      { authorUniqueId := some "ab", videoId := some "123", createTime := 1709596800,
        videoUrl := some "http://v", description := none }).files
      = ["ab_vid_05032024_123.mp4"] := by
  constructor
  · intro tz fetch vd d h
    unfold downloadVideo
    rw [h]
  · decide

/-- Witness for C5: the general filename-scheme clause applied at a
concrete descriptor and fetcher. -/
theorem C5_witness :
    (downloadVideo 0 (fun _ => Except.ok "payload") markupVideoData).files
      = [jsTemplate markupVideoData.authorUniqueId ++ "_vid_"
          ++ formatUploadDate 0 markupVideoData.createTime ++ "_"
          ++ jsTemplate markupVideoData.videoId ++ ".mp4"] :=
  C5_video_filename_scheme.1 0 (fun _ => Except.ok "payload") markupVideoData "payload" rfl

/-- C6: for a resolved photo set of three image URLs whose second fetch
fails, the images are fetched strictly sequentially — the third URL is
never fetched — exactly the first file is written and stays written (no
rollback), the session records exactly one Failed record for the set
(with the fetch error as details), and the error is absorbed into the
spinner report rather than escaping the orchestrator. -/
theorem C6_partial_photo_failure (env : Env) (url u1 u2 u3 d e : String)
    (pd : ApiResultObj) (a : ApiAuthor)
    (hval : validateURL url = true) (hph : includesPhoto url = true)
    (hapi : env.api = Except.ok { status := "success", result := some pd })
    (hty : pd.type = some "image") (himgs : pd.images = some [u1, u2, u3])
    (hauth : pd.author = some a)
    (h1 : env.fetchImage u1 = Except.ok d) (h2 : env.fetchImage u2 = Except.error e) :
    (processUrl env url).files
      = [jsTemplate a.username ++ "_img_" ++ formatUploadDate env.tz pd.createTime
          ++ "_" ++ jsTemplate pd.id ++ "_" ++ toString (1 : Nat) ++ ".jpg"] ∧
    (processUrl env url).stats
      = [{ type := "Photo", id := some (orUnknown pd.id),
           author := some (orUnknown a.username), status := "Failed", details := e }] ∧
    (processUrl env url).events
      = [Event.apiFetch url, Event.imageFetch u1,
         Event.fileWrite (jsTemplate a.username ++ "_img_"
           ++ formatUploadDate env.tz pd.createTime ++ "_" ++ jsTemplate pd.id
           ++ "_" ++ toString (1 : Nat) ++ ".jpg"),
         Event.imageFetch u2] ∧
    (processUrl env url).spinner = SpinnerEnd.fail ("Error: " ++ e) := by
  rw [processUrl_photo_branch env url hval hph]
  have hg : getMediaInfoFromAPI env.api = Except.ok (some pd) := by
    rw [hapi]; rfl
  unfold processPhoto
  rw [hg]
  simp [hty, himgs, hauth, downloadImages, imagesGo, h1, h2]

/-- Backup-API payload for the three-image witness scenario. -/
def threeImagesResult : ApiResultObj :=
  { type := some "image", id := some "7", createTime := 1709596800,
    author := some { username := some "al" },
    images := some ["http://img/1", "http://img/2", "http://img/3"], video := none }

/-- Environment for the three-image witness scenario: the first image
fetch succeeds, the second fails. -/
def threeImagesEnv : Env :=
  { tz := 0, html := Except.error "unused", rehydration := fun _ => none,
    parseJson := fun _ => none,
    api := Except.ok { status := "success", result := some threeImagesResult },
    fetchImage := fun u =>
      if u = "http://img/1" then Except.ok "bytes" else Except.error "socket hang up",
    fetchVideo := fun _ => Except.error "unused" }

/-- Witness for C6: the concrete three-image scenario, instantiating
every hypothesis of the theorem. -/
theorem C6_witness :
    (processUrl threeImagesEnv photoUrl).stats
      = [{ type := "Photo", id := some (orUnknown threeImagesResult.id),
           author := some (orUnknown (ApiAuthor.mk (some "al")).username),
           status := "Failed", details := "socket hang up" }] ∧
    (processUrl threeImagesEnv photoUrl).spinner
      = SpinnerEnd.fail ("Error: " ++ "socket hang up") := by
  have h := C6_partial_photo_failure threeImagesEnv photoUrl
    "http://img/1" "http://img/2" "http://img/3" "bytes" "socket hang up"
    threeImagesResult (ApiAuthor.mk (some "al"))
    (by decide) (by decide) rfl rfl rfl rfl rfl rfl
  exact ⟨h.2.1, h.2.2.2⟩

/-- C7: every failure mode of the markup strategy — a transport-level
HTML fetch failure, a missing rehydration element, a JSON parse error
(and, inside `extractVideoDataFromJson`, any missing required field) —
leaves the strategy with no descriptor (`markupResolve = none`), and in
that case resolution transparently falls through to the backup-API
strategy: the run performs exactly one backup-API call. -/
theorem C7_markup_failure_falls_through (env : Env) (url : String)
    (hval : validateURL url = true) (hph : includesPhoto url = false) :
    ((∀ e, env.html = Except.error e → markupResolve env = none) ∧
     (∀ h, env.html = Except.ok h → env.rehydration h = none → markupResolve env = none) ∧
     (∀ h raw, env.html = Except.ok h → env.rehydration h = some raw →
        env.parseJson raw = none → markupResolve env = none)) ∧
    (markupResolve env = none →
      (processUrl env url).events.count (Event.apiFetch url) = 1) := by
  refine ⟨⟨?_, ?_, ?_⟩, ?_⟩
  · intro e he
    unfold markupResolve
    rw [he]
  · intro h hh hr
    unfold markupResolve
    simp [hh, hr]
  · intro h raw hh hr hp
    unfold markupResolve
    by_cases hraw : raw = "" <;>
      simp [hh, hr, hraw, extractVideoDataFromJson, hp]
  · intro hm
    rw [processUrl_video_branch env url hval hph]
    exact processVideo_api_count_of_markup_none env url hm

/-- Witness for C7: in a concrete run whose page fetch fails at the
transport level, the backup API is consulted exactly once. -/
theorem C7_witness :
    validateURL videoUrl = true ∧ includesPhoto videoUrl = false ∧
    markupResolve failingEnv = none ∧
    (processUrl failingEnv videoUrl).events.count (Event.apiFetch videoUrl) = 1 :=
  ⟨by decide, by decide, rfl,
    (C7_markup_failure_falls_through failingEnv videoUrl (by decide) (by decide)).2 rfl⟩

/-- `itemStruct` whose author uniqueId and item id are both the empty
string: structurally present, so the markup strategy accepts it. -/
def emptyIdsItemStruct : ItemStruct :=
  { author := some { uniqueId := some "" },
    video := some { playAddr := some "http://cdn/v.mp4", bitrateInfo := none },
    id := some "", createTime := 0, desc := none }

/-- Rehydration document carrying `emptyIdsItemStruct`. -/
def emptyIdsRoot : ParsedRoot :=
  { defaultScope := some { videoDetail := some { itemInfo := some { itemStruct := some emptyIdsItemStruct } } } }

/-- Environment whose markup strategy resolves `emptyIdsRoot` and whose
video fetch succeeds. -/
def emptyIdsEnv : Env :=
  { tz := 0, html := Except.ok "<html>", rehydration := fun _ => some "raw",
    parseJson := fun _ => some emptyIdsRoot,
    api := Except.error "unused",
    fetchImage := fun _ => Except.error "unused",
    fetchVideo := fun _ => Except.ok "bytes" }

/-- C8, counterexample: the claim says every descriptor produced by
successful resolution has a non-empty authorId and a non-empty id, and
that resolution fails otherwise.  The code never checks non-emptiness:
with `author.uniqueId = ""` and `itemStruct.id = ""` the markup strategy
resolves successfully, the download runs to completion, and the session
records a Success record whose id and author are both the empty
string. -/
theorem C8_cex_empty_ids_resolve :
    markupResolve emptyIdsEnv
      = some { authorUniqueId := some "", videoId := some "", createTime := 0,
               videoUrl := some "http://cdn/v.mp4", description := none } ∧
    (processUrl emptyIdsEnv videoUrl).spinner
      = SpinnerEnd.succeed "Video downloaded successfully!" ∧
    (processUrl emptyIdsEnv videoUrl).stats
      = [{ type := "Video", id := some "", author := some "", status := "Success",
           details := "MP4 Saved" }] := by
  decide

/-- C8 (amended): resolution validates only the structural presence of
the navigated objects (scope, video-detail, itemInfo, itemStruct, author
and video); field values pass through unvalidated, so descriptors with
empty or absent authorId/id can be produced by successful resolution. -/
theorem C8_fields_pass_through (parse : String → Option ParsedRoot) (raw : String)
    (root : ParsedRoot) (scope : ScopeObj) (det : VideoDetailObj) (info : ItemInfoObj)
    (istruct : ItemStruct) (author : AuthorObj) (video : VideoObj)
    (hparse : parse raw = some root) (hscope : root.defaultScope = some scope)
    (hdet : scope.videoDetail = some det) (hinfo : det.itemInfo = some info)
    (histr : info.itemStruct = some istruct) (hauthor : istruct.author = some author)
    (hvideo : istruct.video = some video) (hbr : video.bitrateInfo = none) :
    extractVideoDataFromJson parse raw
      = some { authorUniqueId := author.uniqueId, videoId := istruct.id,
               createTime := istruct.createTime, videoUrl := video.playAddr,
               description := istruct.desc } := by
  unfold extractVideoDataFromJson
  simp [hparse, hscope, hdet, hinfo, histr, hauthor, hvideo, hbr]

/-- Witness for C8: the pass-through theorem applied to the concrete
empty-ids document. -/
theorem C8_witness :
    extractVideoDataFromJson (fun _ => some emptyIdsRoot) "raw"
      = some { authorUniqueId := emptyIdsItemStruct.author.getD (AuthorObj.mk none) |>.uniqueId,
               videoId := emptyIdsItemStruct.id,
               createTime := emptyIdsItemStruct.createTime,
               videoUrl := (emptyIdsItemStruct.video.getD (VideoObj.mk none none)).playAddr,
               description := emptyIdsItemStruct.desc } :=
  C8_fields_pass_through (fun _ => some emptyIdsRoot) "raw" emptyIdsRoot _ _ _
    emptyIdsItemStruct (AuthorObj.mk (some "")) (VideoObj.mk (some "http://cdn/v.mp4") none)
    rfl rfl rfl rfl rfl rfl rfl rfl

/-- C9: for every valid platform URL, the run enters the photo-set
branch (whose first side effect is the backup-API fetch) exactly when
the literal substring "/photo/" occurs anywhere in the raw URL string —
query string and fragment included, with no parsing into path segments —
and every valid URL without that substring enters the video branch
(whose first side effect is the page-HTML fetch). -/
theorem C9_classification_by_substring (env : Env) (url : String)
    (hval : validateURL url = true) :
    ((processUrl env url).events.head? = some (Event.apiFetch url) ↔
      "/photo/".data <:+: url.data) ∧
    (¬ "/photo/".data <:+: url.data →
      (processUrl env url).events.head? = some (Event.htmlFetch url)) := by
  by_cases hph : includesPhoto url
  · rw [processUrl_photo_branch env url hval hph]
    have hinf := (includesPhoto_iff url).mp hph
    exact ⟨⟨fun _ => hinf, fun _ => processPhoto_events_head env url⟩,
      fun hn => absurd hinf hn⟩
  · rw [processUrl_video_branch env url hval (by simpa using hph)]
    have hninf : ¬ "/photo/".data <:+: url.data :=
      fun h => hph ((includesPhoto_iff url).mpr h)
    refine ⟨⟨fun hhead => ?_, fun h => absurd h hninf⟩,
      fun _ => processVideo_events_head env url⟩
    rw [processVideo_events_head env url] at hhead
    simp at hhead

/-- A valid video-path URL that carries "/photo/" only inside its query
string. -/
def queryPhotoUrl : String := "https://www.tiktok.com/@user/video/7?ref=/photo/"

/-- Witness for C9: a URL whose only "/photo/" occurrence sits in the
query string is still routed to the photo branch — classification is a
raw substring test, not path-segment parsing. -/
theorem C9_witness :
    validateURL queryPhotoUrl = true ∧
    (processUrl failingEnv queryPhotoUrl).events.head?
      = some (Event.apiFetch queryPhotoUrl) :=
  ⟨by decide,
    (C9_classification_by_substring failingEnv queryPhotoUrl (by decide)).1.mpr (by decide)⟩

/-- C10: the kind label of the photo-set ledger record depends on the
outcome: a fully successful download pushes a "Photo Slide" / Success
record (with the raw id and author), while any failure pushes a
"Photo" / Failed record with id and author defaulted to "Unknown" when
falsy — so success and failure records for the same media kind carry
different kind labels. -/
theorem C10_photo_kind_labels (tz : Int) (fetch : String → Except String String)
    (imageId : Option String) (imageUrls : List String) (timestamp : Int)
    (authorId : Option String) :
    ((downloadImages tz fetch imageId imageUrls timestamp authorId).result = Except.ok () →
      ∃ n : Nat, (downloadImages tz fetch imageId imageUrls timestamp authorId).stats
        = [{ type := "Photo Slide", id := imageId, author := authorId,
             status := "Success", details := toString n ++ " Images" }]) ∧
    (∀ e, (downloadImages tz fetch imageId imageUrls timestamp authorId).result
        = Except.error e →
      (downloadImages tz fetch imageId imageUrls timestamp authorId).stats
        = [{ type := "Photo", id := some (orUnknown imageId),
             author := some (orUnknown authorId), status := "Failed", details := e }]) ∧
    ("Photo Slide" : String) ≠ "Photo" := by
  rcases h : imagesGo tz fetch timestamp authorId imageId imageUrls 0 with ⟨evs, files, res⟩
  cases res with
  | ok n =>
    refine ⟨fun _ => ⟨n, ?_⟩, fun e he => ?_, by decide⟩
    · simp [downloadImages, h]
    · exfalso
      simp [downloadImages, h] at he
  | error e' =>
    refine ⟨fun hok => ?_, fun e he => ?_, by decide⟩
    · exfalso
      simp [downloadImages, h] at hok
    · have he' : e' = e := by
        simpa [downloadImages, h] using he
      subst he'
      simp [downloadImages, h]

/-- Witness for C10: both label shapes realized on concrete inputs —
one fully successful single-image set, one failing single-image set. -/
theorem C10_witness :
    (∃ n : Nat, (downloadImages 0 (fun _ => Except.ok "b") (some "7") ["u"] 0 (some "al")).stats
      = [{ type := "Photo Slide", id := some "7", author := some "al",
           status := "Success", details := toString n ++ " Images" }]) ∧
    (downloadImages 0 (fun _ => Except.error "boom") (some "7") ["u"] 0 (some "al")).stats
      = [{ type := "Photo", id := some (orUnknown (some "7")),
           author := some (orUnknown (some "al")), status := "Failed",
           details := "boom" }] :=
  ⟨(C10_photo_kind_labels 0 (fun _ => Except.ok "b") (some "7") ["u"] 0 (some "al")).1 rfl,
   (C10_photo_kind_labels 0 (fun _ => Except.error "boom") (some "7") ["u"] 0 (some "al")).2.1
     "boom" rfl⟩

end TiktokDl
